import Mathlib

/-!
Shallow embedding of the serde-sqlx row-decoding engine (src/lib.rs) and proofs of the
specification's claims about it.

External collaborators (sqlx per-type byte decoders, serde_json's parser, chrono's
formatting) are modelled as oracles: each column carries the `Option` result that the
corresponding `decode_raw_pg::<T>` call would produce, and an `Externals` record carries
the parse/format functions. All control flow of src/lib.rs itself is translated directly.
-/

namespace SerdeSqlx

/-- serde_json::Value tree. Numbers are collapsed to `Int`: no claim depends on the
numeric subtype. -/
inductive Json where
  | null
  | bool (b : Bool)
  | num (n : Int)
  | str (s : String)
  | arr (xs : List Json)
  | obj (kvs : List (String × Json))
deriving Repr

/-- Opaque f32 value, represented by its bit pattern (sqlx's f32 decode is external). -/
structure F32 where
  bits : Int
deriving DecidableEq, Repr

/-- Opaque f64 value, represented by its bit pattern. -/
structure F64 where
  bits : Int
deriving DecidableEq, Repr

/-- sqlx::postgres::types::PgInterval: months, days and microseconds components. -/
structure PgInterval where
  months : Int
  days : Int
  microseconds : Int
deriving DecidableEq, Repr

/-- One column of a PgRow: its name, runtime type tag, null flag, and oracle results of
the external `decode_raw_pg::<T>` calls the engine can make on it. A `none` oracle field
means that decode would fail (decode_raw_pg collapses any error to None). Fields that
fuse an external decode with an external infallible formatting step (DATE, TIME,
TIMESTAMP, UUID) carry the formatted string directly. -/
structure PgColumnValue where
  name : String
  typeName : String
  isNull : Bool
  decodeBool : Option Bool := none
  decodeI16 : Option Int := none
  decodeI32 : Option Int := none
  decodeI64 : Option Int := none
  decodeF32 : Option F32 := none
  decodeF64 : Option F64 := none
  decodeString : Option String := none
  decodeBytes : Option (List Nat) := none
  dateString : Option String := none
  timeString : Option String := none
  timestampRfc3339 : Option String := none
  uuidString : Option String := none
  decodeInterval : Option PgInterval := none
  asBytes : Option (List Nat) := none
  arrayStrings : Option (List (Option String)) := none
  arrayI32 : Option (List (Option Int)) := none
  arrayBools : Option (List (Option Bool)) := none
  arrayJsonPayloads : Option (List (Option (List Nat))) := none

/-- External pure collaborators: serde_json::from_slice, and chrono::Duration's Display
(a chrono Duration is determined by its total nanoseconds). -/
structure Externals where
  jsonParse : List Nat → Except String Json
  durationToString : Int → String

/-- A PgRow: ordered list of columns. -/
structure PgRow where
  cols : List PgColumnValue

/-- Row::try_get_raw — positional raw access; out-of-range is an access error. -/
def tryGetRaw (row : PgRow) (i : Nat) : Except String PgColumnValue :=
  match row.cols.get? i with
  | some c => Except.ok c
  | none => Except.error "column index out of bounds"

/-- Result of an engine-level deserialize call: a visit delivered to the visitor, an
error, or a reached panic (unreachable!). -/
inductive DecRes (α : Type) where
  | panic (msg : String)
  | err (msg : String)
  | ok (a : α)
deriving DecidableEq, Repr

def DecRes.isErr : DecRes α → Bool
  | .err _ => true
  | _ => false

def DecRes.map (f : α → β) : DecRes α → DecRes β
  | .panic m => .panic m
  | .err e => .err e
  | .ok a => .ok (f a)

/-- Failure kinds of PgJson::decode: the "invalid JSONB header" format error is a
distinct error value from a serde_json parse error (and from as_bytes failing). -/
inductive JsonDecodeError where
  | header
  | access
  | parse (msg : String)
deriving DecidableEq, Repr

/-- Result of PgJson::decode, with the unreachable! arm explicit. -/
inductive JsonDecodeRes where
  | panic (msg : String)
  | err (e : JsonDecodeError)
  | ok (v : Json)
deriving Repr

def parseRes : Except String Json → JsonDecodeRes
  | .ok v => .ok v
  | .error e => .err (.parse e)

/-- PgJson::decode (mod json of src/lib.rs): match the type tag ("JSON" plain, "JSONB"
binary envelope, anything else hits unreachable!); for JSONB the payload must start with
version byte 1, which is stripped; the remainder is handed to serde_json. `asBytes` is
the value.as_bytes() result (none = access failure). -/
def pgJsonDecode (ext : Externals) (typeName : String) (asBytes : Option (List Nat)) :
    JsonDecodeRes :=
  if typeName = "JSON" then
    match asBytes with
    | none => .err .access
    | some bytes => parseRes (ext.jsonParse bytes)
  else if typeName = "JSONB" then
    match asBytes with
    | none => .err .access
    | some bytes =>
      match bytes with
      | [] => .err .header
      | b :: rest =>
        if b = 1 then parseRes (ext.jsonParse rest) else .err .header
  else .panic ("Got " ++ typeName ++ " in PgJson")

/-- Outcome of decode_raw_pg::<T>: Rust collapses Err to None (here `failed`), but a
panic aborts instead. -/
inductive RawDec (α : Type) where
  | panic (msg : String)
  | failed
  | ok (a : α)
deriving DecidableEq, Repr

/-- decode_raw_pg::<PgJson> applied to a column's raw value. -/
def decodeRawPgJson (ext : Externals) (v : PgColumnValue) : RawDec Json :=
  match pgJsonDecode ext v.typeName v.asBytes with
  | .panic m => .panic m
  | .err _ => .failed
  | .ok j => .ok j

/-- The visit a PgValueDeserializer::deserialize_any call delivers to its visitor. The
JSON/JSONB branch feeds the whole parsed tree through serde_json's value deserializer,
recorded as `vJson`. -/
inductive VisitScalar where
  | vNone
  | vBool (b : Bool)
  | vI16 (n : Int)
  | vI32 (n : Int)
  | vI64 (n : Int)
  | vF32 (x : F32)
  | vF64 (x : F64)
  | vString (s : String)
  | vBytes (bs : List Nat)
  | vJson (j : Json)
deriving Repr

/-- The INTERVAL arithmetic of deserialize_any, as total nanoseconds of the resulting
chrono::Duration: secs = microseconds / 1_000_000 and the remainder in nanoseconds
(Rust i64 division and remainder truncate toward zero), plus days; the months component
is never used. -/
def intervalNanos (iv : PgInterval) : Int :=
  let secs := Int.tdiv iv.microseconds 1000000
  let nanos := Int.tmod iv.microseconds 1000000 * 1000
  secs * 1000000000 + nanos + iv.days * 86400 * 1000000000

/-- Helper: deliver the visit if the external decode succeeded, else the branch's
"Failed to decode ..." error. -/
def visitOr (o : Option VisitScalar) (msg : String) : DecRes VisitScalar :=
  match o with
  | some x => .ok x
  | none => .err msg

/-- The tags matched by a named arm of PgValueDeserializer::deserialize_any; every other
tag reaches the fallback arm. -/
def recognizedTags : List String :=
  ["FLOAT4", "FLOAT8", "NUMERIC", "INT8", "INT4", "INT2", "BOOL", "DATE", "TIME",
   "TIMETZ", "TIMESTAMP", "TIMESTAMPTZ", "UUID", "BYTEA", "INTERVAL", "CHAR", "TEXT",
   "JSON", "JSONB"]

/-- PgValueDeserializer::deserialize_any: null short-circuits to visit_none, then the
match on the type tag dispatches to the per-type decode; the last arm is the fallback
string decode. -/
def valueDeserializeAny (ext : Externals) (v : PgColumnValue) : DecRes VisitScalar :=
  if v.isNull then .ok .vNone
  else if v.typeName = "FLOAT4" then
    visitOr (v.decodeF32.map VisitScalar.vF32) "Failed to decode FLOAT4"
  else if v.typeName = "FLOAT8" ∨ v.typeName = "NUMERIC" then
    visitOr (v.decodeF64.map VisitScalar.vF64) "Failed to decode FLOAT8/NUMERIC"
  else if v.typeName = "INT8" then
    visitOr (v.decodeI64.map VisitScalar.vI64) "Failed to decode INT8"
  else if v.typeName = "INT4" then
    visitOr (v.decodeI32.map VisitScalar.vI32) "Failed to decode INT4"
  else if v.typeName = "INT2" then
    visitOr (v.decodeI16.map VisitScalar.vI16) "Failed to decode INT2"
  else if v.typeName = "BOOL" then
    visitOr (v.decodeBool.map VisitScalar.vBool) "Failed to decode BOOL"
  else if v.typeName = "DATE" then
    visitOr (v.dateString.map VisitScalar.vString) "Failed to decode DATE"
  else if v.typeName = "TIME" ∨ v.typeName = "TIMETZ" then
    visitOr (v.timeString.map VisitScalar.vString) "Failed to decode TIME/TIMETZ"
  else if v.typeName = "TIMESTAMP" ∨ v.typeName = "TIMESTAMPTZ" then
    visitOr (v.timestampRfc3339.map VisitScalar.vString)
      "Failed to decode TIMESTAMP/TIMESTAMPTZ"
  else if v.typeName = "UUID" then
    visitOr (v.uuidString.map VisitScalar.vString) "Failed to decode UUID"
  else if v.typeName = "BYTEA" then
    visitOr (v.decodeBytes.map VisitScalar.vBytes) "Failed to decode BYTEA"
  else if v.typeName = "INTERVAL" then
    visitOr
      (v.decodeInterval.map fun iv => VisitScalar.vString
        (ext.durationToString (intervalNanos iv)))
      "Failed to decode INTERVAL"
  else if v.typeName = "CHAR" ∨ v.typeName = "TEXT" then
    visitOr (v.decodeString.map VisitScalar.vString) "Failed to decode TEXT/CHAR"
  else if v.typeName = "JSON" ∨ v.typeName = "JSONB" then
    match decodeRawPgJson ext v with
    | .panic m => .panic m
    | .failed => .err "Failed to decode JSON/JSONB"
    | .ok j => .ok (.vJson j)
  else
    visitOr (v.decodeString.map VisitScalar.vString)
      ("Failed to decode type " ++ v.typeName)

/-- The visit a deserialize_option call delivers: visit_none for a null value, or
visit_some recursing into the same deserializer. -/
inductive OptVisit where
  | vNone
  | vSomeSelf
deriving DecidableEq, Repr

/-- PgValueDeserializer::deserialize_option. -/
def valueDeserializeOption (v : PgColumnValue) : DecRes OptVisit :=
  if v.isNull then .ok .vNone else .ok .vSomeSelf

/-- PgRowDeserializer::deserialize_option: checks nullness of column 0 (always index 0
in the source), then visit_none or visit_some(self). -/
def rowDeserializeOption (row : PgRow) : DecRes OptVisit :=
  match tryGetRaw row 0 with
  | .error e => .err e
  | .ok v => if v.isNull then .ok .vNone else .ok .vSomeSelf

/-- The visit an array element receives through PgArrayElementDeserializer: vNone/vSome
from its deserialize_option, vAny from its deserialize_any (every non-option shape
forwards there). -/
inductive ElemVisit (α : Type) where
  | vNone
  | vSome (a : α)
  | vAny (a : α)
deriving DecidableEq, Repr

/-- The element shape the caller requested: an Option target calls deserialize_option,
every other target forwards to deserialize_any. -/
inductive ElemShape where
  | optional
  | required
deriving DecidableEq, Repr

/-- PgArrayElementDeserializer::deserialize_option. -/
def arrayElemDeserializeOption (v : Option α) : Except String (ElemVisit α) :=
  match v with
  | some a => .ok (.vSome a)
  | none => .ok .vNone

/-- PgArrayElementDeserializer::deserialize_any: a missing (NULL) element is an error
here. -/
def arrayElemDeserializeAny (v : Option α) : Except String (ElemVisit α) :=
  match v with
  | some a => .ok (.vAny a)
  | none => .error "unexpected null in non-optional array element"

def arrayElemDeserialize (shape : ElemShape) (v : Option α) : Except String (ElemVisit α) :=
  match shape with
  | .optional => arrayElemDeserializeOption v
  | .required => arrayElemDeserializeAny v

/-- PgArraySeqAccess: the decoded Vec<Option<T>>'s elements are yielded in order, each
through PgArrayElementDeserializer; the first element error aborts the sequence. -/
def pgArraySeqDecode (shape : ElemShape) : List (Option α) →
    Except String (List (ElemVisit α))
  | [] => .ok []
  | x :: xs =>
    match arrayElemDeserialize shape x with
    | .error e => .error e
    | .ok w =>
      match pgArraySeqDecode shape xs with
      | .error e => .error e
      | .ok ws => .ok (w :: ws)

/-- The outcome of PgRowDeserializer::deserialize_seq: one of the four one-shot array
branches (carrying the decoded Vec<Option<T>>), or the fallback PgRowSeqAccess over the
row's own columns (recorded by its starting cursor and captured num_cols). -/
inductive SeqVisit where
  | arrayStrings (xs : List (Option String))
  | arrayI32 (xs : List (Option Int))
  | arrayJson (xs : List (Option Json))
  | arrayBools (xs : List (Option Bool))
  | rowSeq (startIdx numCols : Nat)
deriving Repr

/-- sqlx hands each array element to the element decoder tagged with the array's element
type: "JSON[]" → "JSON", "JSONB[]" → "JSONB". -/
def elemTag (t : String) : String := t.dropRight 2

/-- Per-element PgJson::decode inside a Vec<Option<PgJson>> decode: a None element is an
in-array NULL; one failing element fails the whole Vec decode. -/
def decodeJsonElems (ext : Externals) (t : String) :
    List (Option (List Nat)) → RawDec (List (Option Json))
  | [] => .ok []
  | none :: rest =>
    match decodeJsonElems ext t rest with
    | .panic m => .panic m
    | .failed => .failed
    | .ok xs => .ok (none :: xs)
  | some bytes :: rest =>
    match pgJsonDecode ext t (some bytes) with
    | .panic m => .panic m
    | .err _ => .failed
    | .ok j =>
      match decodeJsonElems ext t rest with
      | .panic m => .panic m
      | .failed => .failed
      | .ok xs => .ok (some j :: xs)

/-- decode_raw_pg::<Vec<Option<PgJson>>>: the sqlx array decode yields per-element
payloads (oracle field), each parsed by PgJson::decode with the element tag. -/
def decodeJsonArray (ext : Externals) (v : PgColumnValue) : RawDec (List (Option Json)) :=
  match v.arrayJsonPayloads with
  | none => .failed
  | some payloads => decodeJsonElems ext (elemTag v.typeName) payloads

/-- The array tags given a dedicated one-shot branch by deserialize_seq. -/
def handledArrayTags : List String :=
  ["TEXT[]", "VARCHAR[]", "INT4[]", "JSON[]", "JSONB[]", "BOOL[]"]

/-- PgRowDeserializer::deserialize_seq: reads the raw value at the current cursor and
matches its tag; the four special arms decode that one column as an array in one shot;
everything else falls back to PgRowSeqAccess over the row's columns. -/
def rowDeserializeSeq (ext : Externals) (row : PgRow) (idx : Nat) : DecRes SeqVisit :=
  match tryGetRaw row idx with
  | .error e => .err e
  | .ok v =>
    if v.typeName = "TEXT[]" ∨ v.typeName = "VARCHAR[]" then
      match v.arrayStrings with
      | some xs => .ok (.arrayStrings xs)
      | none => .err "Failed to decode PostgreSQL array"
    else if v.typeName = "INT4[]" then
      match v.arrayI32 with
      | some xs => .ok (.arrayI32 xs)
      | none => .err "Failed to decode PostgreSQL array"
    else if v.typeName = "JSON[]" ∨ v.typeName = "JSONB[]" then
      match decodeJsonArray ext v with
      | .panic m => .panic m
      | .failed => .err "Failed to decode PostgreSQL array"
      | .ok xs => .ok (.arrayJson xs)
    else if v.typeName = "BOOL[]" then
      match v.arrayBools with
      | some xs => .ok (.arrayBools xs)
      | none => .err "Failed to decode PostgreSQL array"
    else .ok (.rowSeq idx row.cols.length)

/-- The visit delivered by PgRowDeserializer::deserialize_any. -/
inductive RowAnyVisit where
  | vUnit
  | vNone
  | vSeq (s : SeqVisit)
  | vScalar (s : VisitScalar)
deriving Repr

/-- PgRowDeserializer::deserialize_any: 0 columns → visit_unit; more than one column →
deserialize_seq; one column → null check, then "[]"-suffixed tags go to deserialize_seq
and everything else to PgValueDeserializer::deserialize_any. -/
def rowDeserializeAny (ext : Externals) (row : PgRow) (idx : Nat) : DecRes RowAnyVisit :=
  if row.cols.length = 0 then .ok .vUnit
  else if row.cols.length ≠ 1 then (rowDeserializeSeq ext row idx).map .vSeq
  else
    match tryGetRaw row idx with
    | .error e => .err e
    | .ok v =>
      if v.isNull then .ok .vNone
      else if v.typeName.endsWith "[]" then (rowDeserializeSeq ext row idx).map .vSeq
      else (valueDeserializeAny ext v).map .vScalar

/-- PgRowDeserializer::deserialize_tuple forwards to deserialize_seq. -/
def rowDeserializeTuple (ext : Externals) (row : PgRow) (idx : Nat) : DecRes SeqVisit :=
  rowDeserializeSeq ext row idx

/-- What a struct-targeted decode hands its visitor: either a JSON tree (via
PgJsonDeserializer / serde_json) or the row's map view (PgRowMapAccess with its starting
cursor and captured num_cols). -/
inductive StructVisit where
  | json (j : Json)
  | mapView (startIdx numCols : Nat)
deriving Repr

/-- PgRowDeserializer::deserialize_map: unconditionally visit_map over PgRowMapAccess. -/
def rowDeserializeMap (row : PgRow) (idx : Nat) : DecRes StructVisit :=
  .ok (.mapView idx row.cols.length)

def jsonKeys (kvs : List (String × Json)) : List String := kvs.map Prod.fst

/-- serde_json::Map::contains_key. -/
def hasKey (kvs : List (String × Json)) (k : String) : Bool := kvs.any fun p => p.1 = k

/-- Rust Debug rendering of a list of strings, as in the missing-keys error. -/
def debugStrList (xs : List String) : String :=
  "[" ++ String.intercalate ", " (xs.map fun s => "\x22" ++ s ++ "\x22") ++ "]"

def missingKeysError (fields keys : List String) : String :=
  "JSON object missing expected keys: expected " ++ debugStrList fields ++
    ", found keys " ++ debugStrList keys

/-- PgRowDeserializer::deserialize_struct: if the column at the cursor is JSON/JSONB,
decode the document and reconcile it against the target's field list (wrap single
missing field, require all fields when several, pass non-objects through); otherwise
fall back to deserialize_map. -/
def rowDeserializeStruct (ext : Externals) (row : PgRow) (idx : Nat)
    (fields : List String) : DecRes StructVisit :=
  match tryGetRaw row idx with
  | .error e => .err e
  | .ok v =>
    if v.typeName = "JSON" ∨ v.typeName = "JSONB" then
      match decodeRawPgJson ext v with
      | .panic m => .panic m
      | .failed => .err "Failed to decode JSON/JSONB"
      | .ok j =>
        match j with
        | .obj kvs =>
          match fields with
          | [f] =>
            if hasKey kvs f then .ok (.json (.obj kvs))
            else .ok (.json (.obj [(f, .obj kvs)]))
          | _ =>
            if fields.all (hasKey kvs) then .ok (.json (.obj kvs))
            else .err (missingKeysError fields (jsonKeys kvs))
        | _ => .ok (.json j)
    else rowDeserializeMap row idx

/-- The scalar kind a primitive Deserialize target requests. -/
inductive ScalarKind where
  | kBool
  | kI16
  | kI32
  | kI64
  | kF32
  | kF64
  | kString
  | kBytes
deriving DecidableEq, Repr

/-- A decoded primitive value, as assembled by a primitive target's visitor. -/
inductive Prim where
  | pBool (b : Bool)
  | pI16 (n : Int)
  | pI32 (n : Int)
  | pI64 (n : Int)
  | pF32 (x : F32)
  | pF64 (x : F64)
  | pString (s : String)
  | pBytes (bs : List Nat)
deriving DecidableEq, Repr

/-- serde's visitor for a primitive target (external collaborator, behavior fixed by
serde): it accepts exactly the matching visit call and rejects visit_none (and every
other mismatched visit) with an invalid-type error. -/
def scalarVisit (k : ScalarKind) (s : VisitScalar) : Except String Prim :=
  match k, s with
  | .kBool, .vBool b => .ok (.pBool b)
  | .kI16, .vI16 n => .ok (.pI16 n)
  | .kI32, .vI32 n => .ok (.pI32 n)
  | .kI64, .vI64 n => .ok (.pI64 n)
  | .kF32, .vF32 x => .ok (.pF32 x)
  | .kF64, .vF64 x => .ok (.pF64 x)
  | .kString, .vString s => .ok (.pString s)
  | .kBytes, .vBytes bs => .ok (.pBytes bs)
  | _, .vNone => .error "invalid type: Option value"
  | _, _ => .error "invalid type"

/-- Decoding a row into a non-optional primitive scalar target: the target's visitor
interprets whatever visit deserialize_any delivers; visit_none and every non-scalar
visit are invalid-type errors. -/
def decodeScalarTarget (k : ScalarKind) (ext : Externals) (row : PgRow) (idx : Nat) :
    DecRes Prim :=
  match rowDeserializeAny ext row idx with
  | .panic m => .panic m
  | .err e => .err e
  | .ok .vUnit => .err "invalid type: unit value"
  | .ok .vNone => .err "invalid type: Option value"
  | .ok (.vSeq _) => .err "invalid type: sequence"
  | .ok (.vScalar s) =>
    match scalarVisit k s with
    | .ok p => .ok p
    | .error e => .err e

/-- Decoding a row into Option<scalar>: serde's Option visitor turns visit_none into
None and visit_some into a recursive decode of the same row deserializer. -/
def decodeOptionScalarTarget (k : ScalarKind) (ext : Externals) (row : PgRow)
    (idx : Nat) : DecRes (Option Prim) :=
  match rowDeserializeOption row with
  | .panic m => .panic m
  | .err e => .err e
  | .ok .vNone => .ok none
  | .ok .vSomeSelf => (decodeScalarTarget k ext row idx).map some

/-- Column reads performed by k calls to PgRowSeqAccess::next_element_seed starting from
cursor i with captured num_cols n: a call reads the cursor and advances it only while
the cursor is below n. -/
def seqAccessReads (n i : Nat) : Nat → List Nat
  | 0 => []
  | k + 1 => if i < n then i :: seqAccessReads n (i + 1) k else seqAccessReads n i k

/-- The cursor after k calls to PgRowSeqAccess::next_element_seed. -/
def seqAccessFinal (n i : Nat) : Nat → Nat
  | 0 => i
  | k + 1 => if i < n then seqAccessFinal n (i + 1) k else seqAccessFinal n i k

/-- The two operations a map visitor can invoke on PgRowMapAccess. -/
inductive MapOp where
  | key
  | value
deriving DecidableEq, Repr

/-- Column reads of a PgRowMapAccess call sequence from cursor i: next_key_seed reads
the column name at the cursor only when it is below num_cols and leaves the cursor;
next_value_seed reads the cursor's raw value unconditionally and advances by one. -/
def mapAccessReads (n i : Nat) : List MapOp → List Nat
  | [] => []
  | MapOp.key :: rest => if i < n then i :: mapAccessReads n i rest else mapAccessReads n i rest
  | MapOp.value :: rest => i :: mapAccessReads n (i + 1) rest

/-- The cursor after a PgRowMapAccess call sequence. -/
def mapAccessFinal (n i : Nat) : List MapOp → Nat
  | [] => i
  | MapOp.key :: rest => mapAccessFinal n i rest
  | MapOp.value :: rest => mapAccessFinal n (i + 1) rest

/-- Serde's MapAccess protocol: next_value_seed is invoked exactly once after a
next_key_seed that returned Some (cursor below num_cols); after a key call that returned
None the visitor may only issue further key calls. -/
inductive MapValid (n : Nat) : Nat → List MapOp → Prop where
  | nil : ∀ i, MapValid n i []
  | keyNone : ∀ i rest, ¬ i < n → MapValid n i rest → MapValid n i (MapOp.key :: rest)
  | keySome : ∀ i rest, i < n → MapValid n (i + 1) rest →
      MapValid n i (MapOp.key :: MapOp.value :: rest)

/-- The visit an array element receives under an optional element shape. -/
def optionalElemVisit : Option α → ElemVisit α
  | some a => .vSome a
  | none => .vNone

/-- The visit a present array element receives under a non-optional element shape (the
`none` case is never produced on a successful decode). -/
def requiredElemVisit : Option α → ElemVisit α
  | some a => .vAny a
  | none => .vNone

/-- Concrete externals for witnesses: a parser that returns the object {"a": 1} for any
payload, and a duration formatter printing the nanosecond count. -/
def extSample : Externals where
  jsonParse := fun _ => Except.ok (Json.obj [("a", Json.num 1)])
  durationToString := fun n => toString n

/-- A JSON-tagged column with a parseable payload. -/
def colJson : PgColumnValue :=
  { name := "c0", typeName := "JSON", isNull := false, asBytes := some [123, 125] }

/-- A plain INT4 column. -/
def colInt4 : PgColumnValue :=
  { name := "c1", typeName := "INT4", isNull := false, decodeI32 := some 2 }

/-- An INT8[] array column: its element kind is a ScalarCodec primitive. -/
def colInt8Array : PgColumnValue :=
  { name := "c2", typeName := "INT8[]", isNull := false }

/-- A two-column row whose first column is document-tagged. -/
def rowTwoCols : PgRow := ⟨[colJson, colInt4]⟩

/-- A null BOOL column for the null-law witness. -/
def colNullBool : PgColumnValue :=
  { name := "c3", typeName := "BOOL", isNull := true }

/-- A non-null BOOL column. -/
def colBool : PgColumnValue :=
  { name := "c4", typeName := "BOOL", isNull := false, decodeBool := some true }

/-- A non-null VARCHAR column (unrecognized tag, served by the string fallback). -/
def colVarchar : PgColumnValue :=
  { name := "c6", typeName := "VARCHAR", isNull := false, decodeString := some "hi" }

/-- A TEXT[] column holding ["a", NULL]. -/
def colTextArray : PgColumnValue :=
  { name := "c5", typeName := "TEXT[]", isNull := false,
    arrayStrings := some [some "a", none] }


/-- C5: parsing a binary-variant document fails with the header format error exactly
when the payload is empty or its first byte is not the envelope version 1; a leading 1
is stripped and the remainder parses identically to a text-variant payload. -/
theorem c5_jsonb_envelope (ext : Externals) :
    (∀ bytes, pgJsonDecode ext "JSONB" (some bytes) = JsonDecodeRes.err JsonDecodeError.header ↔
      bytes = [] ∨ bytes.head? ≠ some 1) ∧
    (∀ rest, pgJsonDecode ext "JSONB" (some (1 :: rest)) = pgJsonDecode ext "JSON" (some rest)) ∧
    (∀ rest, pgJsonDecode ext "JSON" (some rest) = parseRes (ext.jsonParse rest)) := by
  refine ⟨?_, ?_, ?_⟩
  · intro bytes
    cases bytes with
    | nil => simp [pgJsonDecode]
    | cons b rest =>
      by_cases hb : b = 1
      · subst hb
        simp only [pgJsonDecode]
        cases h : ext.jsonParse rest <;> simp [parseRes, h]
      · simp [pgJsonDecode, hb]
  · intro rest
    rfl
  · intro rest
    rfl

/-- C5 witness: concrete payloads exercising the envelope law. -/
theorem c5_witness :
    (pgJsonDecode extSample "JSONB" (some [2, 3]) = JsonDecodeRes.err JsonDecodeError.header) ∧
    (pgJsonDecode extSample "JSONB" (some [1, 123, 125]) =
      pgJsonDecode extSample "JSON" (some [123, 125])) := by
  refine ⟨?_, (c5_jsonb_envelope extSample).2.1 [123, 125]⟩
  exact ((c5_jsonb_envelope extSample).1 [2, 3]).mpr (by simp)

/-- C6 helper: under an optional element shape every element decodes, preserving order
and null positions. -/
theorem pgArraySeqDecode_optional (xs : List (Option α)) :
    pgArraySeqDecode ElemShape.optional xs = Except.ok (xs.map optionalElemVisit) := by
  induction xs with
  | nil => rfl
  | cons x xs ih =>
    cases x <;>
      simp [pgArraySeqDecode, arrayElemDeserialize, arrayElemDeserializeOption,
        optionalElemVisit, ih]

/-- C6 helper: under a non-optional element shape the decode fails on a null element. -/
theorem pgArraySeqDecode_required_none (xs : List (Option α)) (hnull : none ∈ xs) :
    pgArraySeqDecode ElemShape.required xs =
      Except.error "unexpected null in non-optional array element" := by
  induction xs with
  | nil => cases hnull
  | cons x xs ih =>
    cases x with
    | none => rfl
    | some a =>
      have hmem : none ∈ xs := by simpa using hnull
      simp [pgArraySeqDecode, arrayElemDeserialize, arrayElemDeserializeAny, ih hmem]

/-- C6 helper: with no null element, a non-optional decode succeeds elementwise in
order. -/
theorem pgArraySeqDecode_required_ok (xs : List (Option α)) (hno : none ∉ xs) :
    pgArraySeqDecode ElemShape.required xs = Except.ok (xs.map requiredElemVisit) := by
  induction xs with
  | nil => rfl
  | cons x xs ih =>
    cases x with
    | none => exact absurd (List.mem_cons_self none xs) hno
    | some a =>
      have hmem : none ∉ xs := fun h => hno (List.mem_cons_of_mem _ h)
      simp [pgArraySeqDecode, arrayElemDeserialize, arrayElemDeserializeAny,
        requiredElemVisit, ih hmem]

/-- C6: a null array element succeeds exactly under an optional element shape (yielding
the absent visit at that position), a non-optional shape fails the whole array with the
exact error, and on success order and null positions are preserved. -/
theorem c6_array_null_elements (xs : List (Option α)) :
    (pgArraySeqDecode ElemShape.optional xs = Except.ok (xs.map optionalElemVisit)) ∧
    (∀ i : Nat, (xs.map optionalElemVisit)[i]? = xs[i]?.map optionalElemVisit) ∧
    (∀ i : Nat, xs[i]? = some none → (xs.map optionalElemVisit)[i]? = some ElemVisit.vNone) ∧
    (none ∈ xs → pgArraySeqDecode ElemShape.required xs =
      Except.error "unexpected null in non-optional array element") ∧
    (none ∉ xs → pgArraySeqDecode ElemShape.required xs =
      Except.ok (xs.map requiredElemVisit)) := by
  refine ⟨pgArraySeqDecode_optional xs, ?_, ?_, pgArraySeqDecode_required_none xs,
    pgArraySeqDecode_required_ok xs⟩
  · intro i
    exact List.getElem?_map optionalElemVisit xs i
  · intro i h
    rw [List.getElem?_map, h]
    rfl

/-- C6 witness: the spec array law ["a", NULL] at an optional target, and the failure at
a non-optional one. -/
theorem c6_witness :
    pgArraySeqDecode ElemShape.optional [some "a", none] =
      Except.ok [ElemVisit.vSome "a", ElemVisit.vNone] ∧
    pgArraySeqDecode ElemShape.required [some "a", none] =
      Except.error "unexpected null in non-optional array element" := by
  constructor
  · exact (c6_array_null_elements [some "a", none]).1
  · exact (c6_array_null_elements [some "a", none]).2.2.2.1 (by simp)

/-- C7: over a single-column row whose column is null, an optional scalar target decodes
to the absent value and a non-optional scalar target errors. -/
theorem c7_null_law (k : ScalarKind) (ext : Externals) (c : PgColumnValue)
    (hnull : c.isNull = true) :
    decodeOptionScalarTarget k ext ⟨[c]⟩ 0 = DecRes.ok none ∧
    (decodeScalarTarget k ext ⟨[c]⟩ 0).isErr = true := by
  constructor
  · simp [decodeOptionScalarTarget, rowDeserializeOption, tryGetRaw, hnull]
  · simp [decodeScalarTarget, rowDeserializeAny, tryGetRaw, hnull, DecRes.isErr]

/-- C7 witness: a concrete null BOOL column. -/
theorem c7_witness :
    decodeOptionScalarTarget ScalarKind.kBool extSample ⟨[colNullBool]⟩ 0 = DecRes.ok none ∧
    (decodeScalarTarget ScalarKind.kBool extSample ⟨[colNullBool]⟩ 0).isErr = true :=
  c7_null_law ScalarKind.kBool extSample colNullBool rfl


/-- C1: for a document-tagged column against an N-field record target whose document
parses to an object: N=1 with the field present decodes directly, N=1 with it absent
wraps the object under that field, N>1 requires every field as a key and otherwise fails
naming expected fields and found keys; a non-object document decodes directly. -/
theorem c1_json_struct_reconciliation (ext : Externals) (row : PgRow) (idx : Nat)
    (fields : List String) (v : PgColumnValue)
    (hv : tryGetRaw row idx = Except.ok v)
    (hdoc : v.typeName = "JSON" ∨ v.typeName = "JSONB") :
    (∀ kvs, decodeRawPgJson ext v = RawDec.ok (Json.obj kvs) →
      (∀ f, fields = [f] → hasKey kvs f = true →
        rowDeserializeStruct ext row idx fields =
          DecRes.ok (StructVisit.json (Json.obj kvs))) ∧
      (∀ f, fields = [f] → hasKey kvs f = false →
        rowDeserializeStruct ext row idx fields =
          DecRes.ok (StructVisit.json (Json.obj [(f, Json.obj kvs)]))) ∧
      (1 < fields.length → fields.all (hasKey kvs) = true →
        rowDeserializeStruct ext row idx fields =
          DecRes.ok (StructVisit.json (Json.obj kvs))) ∧
      (1 < fields.length → fields.all (hasKey kvs) = false →
        rowDeserializeStruct ext row idx fields =
          DecRes.err (missingKeysError fields (jsonKeys kvs)))) ∧
    (∀ j, decodeRawPgJson ext v = RawDec.ok j → (∀ kvs, j ≠ Json.obj kvs) →
      rowDeserializeStruct ext row idx fields = DecRes.ok (StructVisit.json j)) := by
  constructor
  · intro kvs hobj
    refine ⟨?_, ?_, ?_, ?_⟩
    · intro f hf hkey
      subst hf
      simp [rowDeserializeStruct, hv, hdoc, hobj, hkey]
    · intro f hf hkey
      subst hf
      simp [rowDeserializeStruct, hv, hdoc, hobj, hkey]
    · intro hlen hall
      rcases fields with _ | ⟨a, _ | ⟨b, rest⟩⟩
      · simp at hlen
      · simp at hlen
      · simp only [rowDeserializeStruct, hv, if_pos hdoc, hobj] at hall ⊢
        simp [hall]
    · intro hlen hall
      rcases fields with _ | ⟨a, _ | ⟨b, rest⟩⟩
      · simp at hlen
      · simp at hlen
      · simp only [rowDeserializeStruct, hv, if_pos hdoc, hobj] at hall ⊢
        simp [hall]
  · intro j hobj hne
    rcases hdoc with ht | ht <;>
    · cases j <;> simp [rowDeserializeStruct, hv, ht, hobj]
      exact absurd rfl (hne _)

/-- C1 witness: the spec reconciliation-law instance plus a wrap case. -/
theorem c1_witness :
    rowDeserializeStruct extSample ⟨[colJson]⟩ 0 ["a"] =
      DecRes.ok (StructVisit.json (Json.obj [("a", Json.num 1)])) ∧
    rowDeserializeStruct extSample ⟨[colJson]⟩ 0 ["wrapped"] =
      DecRes.ok (StructVisit.json
        (Json.obj [("wrapped", Json.obj [("a", Json.num 1)])])) := by
  constructor
  · exact ((c1_json_struct_reconciliation extSample ⟨[colJson]⟩ 0 ["a"] colJson rfl
      (Or.inl rfl)).1 [("a", Json.num 1)] rfl).1 "a" rfl rfl
  · exact ((c1_json_struct_reconciliation extSample ⟨[colJson]⟩ 0 ["wrapped"] colJson rfl
      (Or.inl rfl)).1 [("a", Json.num 1)] rfl).2.1 "wrapped" rfl rfl

/-- C4 counterexample: a two-column row whose first column is JSON is still routed to
the document reconciliation by deserialize_struct, not to the row map view, refuting
"the override applies only to rows with exactly one column". -/
theorem c4_counterexample :
    rowTwoCols.cols.length = 2 ∧
    rowDeserializeStruct extSample rowTwoCols 0 ["a"] =
      DecRes.ok (StructVisit.json (Json.obj [("a", Json.num 1)])) ∧
    ∀ s n, rowDeserializeStruct extSample rowTwoCols 0 ["a"] ≠
      DecRes.ok (StructVisit.mapView s n) := by
  refine ⟨rfl, rfl, ?_⟩
  intro s n h
  exact StructVisit.noConfusion (DecRes.ok.inj h)

/-- C4 amended: deserialize_struct routes to the document bridge whenever the column at
the cursor is document-tagged, regardless of the row's column count; otherwise it falls
back to the row map view, and an explicit map request always uses the map view. -/
theorem c4_struct_override_amended (ext : Externals) (row : PgRow) (idx : Nat)
    (fields : List String) (v : PgColumnValue)
    (hv : tryGetRaw row idx = Except.ok v) :
    (¬(v.typeName = "JSON" ∨ v.typeName = "JSONB") →
      rowDeserializeStruct ext row idx fields =
        DecRes.ok (StructVisit.mapView idx row.cols.length)) ∧
    ((v.typeName = "JSON" ∨ v.typeName = "JSONB") →
      ∀ s n, rowDeserializeStruct ext row idx fields ≠
        DecRes.ok (StructVisit.mapView s n)) ∧
    rowDeserializeMap row idx = DecRes.ok (StructVisit.mapView idx row.cols.length) := by
  refine ⟨?_, ?_, rfl⟩
  · intro hne
    simp [rowDeserializeStruct, hv, hne, rowDeserializeMap]
  · intro hdoc s n h
    simp only [rowDeserializeStruct, hv, if_pos hdoc] at h
    rcases hr : decodeRawPgJson ext v with m | _ | j <;> simp only [hr] at h
    · exact DecRes.noConfusion h
    · exact DecRes.noConfusion h
    · cases j with
      | obj kvs2 =>
        repeat' split at h
        all_goals simp at h
      | null => simp at h
      | bool b => simp at h
      | num n2 => simp at h
      | str s2 => simp at h
      | arr xs => simp at h

/-- C4 amended witness: a non-document single column goes to the map view. -/
theorem c4_amended_witness :
    rowDeserializeStruct extSample ⟨[colInt4]⟩ 0 ["x"] =
      DecRes.ok (StructVisit.mapView 0 1) :=
  (c4_struct_override_amended extSample ⟨[colInt4]⟩ 0 ["x"] colInt4 rfl).1 (by decide)

/-- C8 helper: PgRowSeqAccess reads stay below num_cols and the cursor never decreases
nor exceeds num_cols. -/
theorem seqAccess_invariant (n : Nat) : ∀ k i, i ≤ n →
    (∀ j ∈ seqAccessReads n i k, j < n) ∧
    i ≤ seqAccessFinal n i k ∧ seqAccessFinal n i k ≤ n := by
  intro k
  induction k with
  | zero => intro i h; simp [seqAccessReads, seqAccessFinal, h]
  | succ k ih =>
    intro i h
    by_cases hi : i < n
    · obtain ⟨hr, hm, hu⟩ := ih (i + 1) hi
      refine ⟨?_, ?_, ?_⟩
      · intro j hj
        simp [seqAccessReads, hi] at hj
        rcases hj with rfl | hj
        · exact hi
        · exact hr j hj
      · simp only [seqAccessFinal, if_pos hi]
        exact le_trans (Nat.le_succ i) hm
      · simpa [seqAccessFinal, hi] using hu
    · obtain ⟨hr, hm, hu⟩ := ih i h
      exact ⟨by simpa [seqAccessReads, hi] using hr,
        by simpa [seqAccessFinal, hi] using hm,
        by simpa [seqAccessFinal, hi] using hu⟩

/-- C8 helper: under the MapAccess protocol, PgRowMapAccess reads stay below num_cols
and the cursor never decreases nor exceeds num_cols. -/
theorem mapAccess_invariant (n : Nat) : ∀ ops i, MapValid n i ops → i ≤ n →
    (∀ j ∈ mapAccessReads n i ops, j < n) ∧
    i ≤ mapAccessFinal n i ops ∧ mapAccessFinal n i ops ≤ n := by
  intro ops i hvalid
  induction hvalid with
  | nil i => intro h; simp [mapAccessReads, mapAccessFinal, h]
  | keyNone i rest hi hrest ih =>
    intro h
    obtain ⟨hr, hm, hu⟩ := ih h
    exact ⟨by simpa [mapAccessReads, hi] using hr,
      by simpa [mapAccessFinal] using hm,
      by simpa [mapAccessFinal] using hu⟩
  | keySome i rest hi hrest ih =>
    intro h
    obtain ⟨hr, hm, hu⟩ := ih hi
    refine ⟨?_, ?_, ?_⟩
    · intro j hj
      simp only [mapAccessReads, if_pos hi, List.mem_cons] at hj
      rcases hj with rfl | rfl | hj
      · exact hi
      · exact hi
      · exact hr j hj
    · simp only [mapAccessFinal]
      exact le_trans (Nat.le_succ i) hm
    · simpa [mapAccessFinal] using hu

/-- C8: across both row access paths the cursor is monotone, advances by at most one per
step, never exceeds the column count, and every column read happens strictly below the
column count. -/
theorem c8_cursor_invariant :
    (∀ n i k, i ≤ n → (∀ j ∈ seqAccessReads n i k, j < n) ∧
      i ≤ seqAccessFinal n i k ∧ seqAccessFinal n i k ≤ n) ∧
    (∀ n i, i ≤ seqAccessFinal n i 1 ∧ seqAccessFinal n i 1 ≤ i + 1) ∧
    (∀ n i ops, MapValid n i ops → i ≤ n → (∀ j ∈ mapAccessReads n i ops, j < n) ∧
      i ≤ mapAccessFinal n i ops ∧ mapAccessFinal n i ops ≤ n) ∧
    (∀ n i op, i ≤ mapAccessFinal n i [op] ∧ mapAccessFinal n i [op] ≤ i + 1) := by
  refine ⟨fun n i k h => seqAccess_invariant n k i h, ?_,
    fun n i ops hv h => mapAccess_invariant n ops i hv h, ?_⟩
  · intro n i
    by_cases hi : i < n <;> simp [seqAccessFinal, hi]
  · intro n i op
    cases op <;> simp [mapAccessFinal]

/-- C8 witness: concrete traces through both access paths. -/
theorem c8_witness :
    (∀ j ∈ seqAccessReads 3 0 5, j < 3) ∧
    (∀ j ∈ mapAccessReads 2 0
      [MapOp.key, MapOp.value, MapOp.key, MapOp.value, MapOp.key], j < 2) := by
  constructor
  · exact (c8_cursor_invariant.1 3 0 5 (by decide)).1
  · refine (c8_cursor_invariant.2.2.1 2 0 _ ?_ (by decide)).1
    exact MapValid.keySome 0 _ (by decide)
      (MapValid.keySome 1 _ (by decide)
        (MapValid.keyNone 2 _ (by decide) (MapValid.nil 2)))


/-- Shared helper: visitOr never panics. -/
theorem visitOr_ne_panic (o : Option VisitScalar) (msg : String) (m : String) :
    visitOr o msg ≠ DecRes.panic m := by
  cases o <;> simp [visitOr]

/-- Shared helper: parseRes never panics. -/
theorem parseRes_ne_panic (r : Except String Json) (m : String) :
    parseRes r ≠ JsonDecodeRes.panic m := by
  cases r <;> simp [parseRes]

/-- Shared helper: on a document tag, PgJson::decode never reaches its unreachable!
arm. -/
theorem pgJsonDecode_doc_ne_panic (ext : Externals) (t : String)
    (ab : Option (List Nat)) (ht : t = "JSON" ∨ t = "JSONB") (m : String) :
    pgJsonDecode ext t ab ≠ JsonDecodeRes.panic m := by
  intro h
  rcases ht with ht | ht <;> subst ht
  · cases ab with
    | none => exact JsonDecodeRes.noConfusion h
    | some bytes => exact parseRes_ne_panic _ m h
  · cases ab with
    | none => exact JsonDecodeRes.noConfusion h
    | some bytes =>
      cases bytes with
      | nil => exact JsonDecodeRes.noConfusion h
      | cons b rest =>
        have hred : pgJsonDecode ext "JSONB" (some (b :: rest)) =
            if b = 1 then parseRes (ext.jsonParse rest) else .err .header := rfl
        rw [hred] at h
        by_cases hb : b = 1
        · rw [if_pos hb] at h
          exact parseRes_ne_panic _ m h
        · rw [if_neg hb] at h
          exact JsonDecodeRes.noConfusion h

/-- Shared helper: decode_raw_pg::<PgJson> on a document-tagged value never panics. -/
theorem decodeRawPgJson_ne_panic (ext : Externals) (v : PgColumnValue)
    (hdoc : v.typeName = "JSON" ∨ v.typeName = "JSONB") (m : String) :
    decodeRawPgJson ext v ≠ RawDec.panic m := by
  intro h
  unfold decodeRawPgJson at h
  rcases hp : pgJsonDecode ext v.typeName v.asBytes with m2 | e | j <;>
    simp only [hp] at h
  · exact pgJsonDecode_doc_ne_panic ext v.typeName v.asBytes hdoc m2 hp
  · exact RawDec.noConfusion h
  · exact RawDec.noConfusion h

/-- Shared helper: elementwise JSON array decode with a document element tag never
panics. -/
theorem decodeJsonElems_ne_panic (ext : Externals) (t : String)
    (ht : t = "JSON" ∨ t = "JSONB") :
    ∀ xs m, decodeJsonElems ext t xs ≠ RawDec.panic m := by
  intro xs
  induction xs with
  | nil => intro m h; exact RawDec.noConfusion h
  | cons x rest ih =>
    intro m h
    cases x with
    | none =>
      simp only [decodeJsonElems] at h
      rcases hr : decodeJsonElems ext t rest with m2 | _ | ys <;> simp only [hr] at h
      · exact ih m2 hr
      · exact RawDec.noConfusion h
      · exact RawDec.noConfusion h
    | some bytes =>
      simp only [decodeJsonElems] at h
      rcases hp : pgJsonDecode ext t (some bytes) with m2 | e | j <;>
        simp only [hp] at h
      · exact pgJsonDecode_doc_ne_panic ext t (some bytes) ht m2 hp
      · exact RawDec.noConfusion h
      · rcases hr : decodeJsonElems ext t rest with m2 | _ | ys <;> simp only [hr] at h
        · exact ih m2 hr
        · exact RawDec.noConfusion h
        · exact RawDec.noConfusion h

/-- Shared helper: a JSON[]/JSONB[] array column never panics, since its element tag is
the corresponding document tag. -/
theorem decodeJsonArray_ne_panic (ext : Externals) (v : PgColumnValue)
    (harr : v.typeName = "JSON[]" ∨ v.typeName = "JSONB[]") (m : String) :
    decodeJsonArray ext v ≠ RawDec.panic m := by
  intro h
  unfold decodeJsonArray at h
  rcases ha : v.arrayJsonPayloads with _ | payloads <;> simp only [ha] at h
  · exact RawDec.noConfusion h
  · refine decodeJsonElems_ne_panic ext (elemTag v.typeName) ?_ payloads m h
    rcases harr with ht | ht <;> rw [ht]
    · exact Or.inl rfl
    · exact Or.inr rfl

/-- Shared helper: deserialize_struct never panics. -/
theorem rowDeserializeStruct_ne_panic (ext : Externals) (row : PgRow) (idx : Nat)
    (fields : List String) (m : String) :
    rowDeserializeStruct ext row idx fields ≠ DecRes.panic m := by
  intro h
  simp only [rowDeserializeStruct] at h
  rcases hvv : tryGetRaw row idx with e | v <;> simp only [hvv] at h
  · exact DecRes.noConfusion h
  · by_cases hdoc : v.typeName = "JSON" ∨ v.typeName = "JSONB"
    · rw [if_pos hdoc] at h
      rcases hr : decodeRawPgJson ext v with m2 | _ | j <;> simp only [hr] at h
      · exact decodeRawPgJson_ne_panic ext v hdoc m2 hr
      · exact DecRes.noConfusion h
      · cases j with
        | obj kvs =>
          repeat' split at h
          all_goals simp at h
        | null => simp at h
        | bool b => simp at h
        | num n2 => simp at h
        | str s2 => simp at h
        | arr xs => simp at h
    · rw [if_neg hdoc] at h
      exact DecRes.noConfusion h

/-- Shared helper: PgValueDeserializer::deserialize_any never panics. -/
theorem valueDeserializeAny_ne_panic (ext : Externals) (v : PgColumnValue) (m : String) :
    valueDeserializeAny ext v ≠ DecRes.panic m := by
  intro h
  simp only [valueDeserializeAny] at h
  by_cases h0 : v.isNull = true
  · rw [if_pos h0] at h
    exact DecRes.noConfusion h
  rw [if_neg h0] at h
  by_cases h1 : v.typeName = "FLOAT4"
  · rw [if_pos h1] at h
    exact visitOr_ne_panic _ _ _ h
  rw [if_neg h1] at h
  by_cases h2 : v.typeName = "FLOAT8" ∨ v.typeName = "NUMERIC"
  · rw [if_pos h2] at h
    exact visitOr_ne_panic _ _ _ h
  rw [if_neg h2] at h
  by_cases h3 : v.typeName = "INT8"
  · rw [if_pos h3] at h
    exact visitOr_ne_panic _ _ _ h
  rw [if_neg h3] at h
  by_cases h4 : v.typeName = "INT4"
  · rw [if_pos h4] at h
    exact visitOr_ne_panic _ _ _ h
  rw [if_neg h4] at h
  by_cases h5 : v.typeName = "INT2"
  · rw [if_pos h5] at h
    exact visitOr_ne_panic _ _ _ h
  rw [if_neg h5] at h
  by_cases h6 : v.typeName = "BOOL"
  · rw [if_pos h6] at h
    exact visitOr_ne_panic _ _ _ h
  rw [if_neg h6] at h
  by_cases h7 : v.typeName = "DATE"
  · rw [if_pos h7] at h
    exact visitOr_ne_panic _ _ _ h
  rw [if_neg h7] at h
  by_cases h8 : v.typeName = "TIME" ∨ v.typeName = "TIMETZ"
  · rw [if_pos h8] at h
    exact visitOr_ne_panic _ _ _ h
  rw [if_neg h8] at h
  by_cases h9 : v.typeName = "TIMESTAMP" ∨ v.typeName = "TIMESTAMPTZ"
  · rw [if_pos h9] at h
    exact visitOr_ne_panic _ _ _ h
  rw [if_neg h9] at h
  by_cases h10 : v.typeName = "UUID"
  · rw [if_pos h10] at h
    exact visitOr_ne_panic _ _ _ h
  rw [if_neg h10] at h
  by_cases h11 : v.typeName = "BYTEA"
  · rw [if_pos h11] at h
    exact visitOr_ne_panic _ _ _ h
  rw [if_neg h11] at h
  by_cases h12 : v.typeName = "INTERVAL"
  · rw [if_pos h12] at h
    exact visitOr_ne_panic _ _ _ h
  rw [if_neg h12] at h
  by_cases h13 : v.typeName = "CHAR" ∨ v.typeName = "TEXT"
  · rw [if_pos h13] at h
    exact visitOr_ne_panic _ _ _ h
  rw [if_neg h13] at h
  by_cases h14 : v.typeName = "JSON" ∨ v.typeName = "JSONB"
  · rw [if_pos h14] at h
    rcases hr : decodeRawPgJson ext v with m2 | _ | j <;> simp only [hr] at h
    · exact decodeRawPgJson_ne_panic ext v h14 m2 hr
    · exact DecRes.noConfusion h
    · exact DecRes.noConfusion h
  · rw [if_neg h14] at h
    exact visitOr_ne_panic _ _ _ h

/-- Shared helper: deserialize_seq never panics. -/
theorem rowDeserializeSeq_ne_panic (ext : Externals) (row : PgRow) (idx : Nat)
    (m : String) : rowDeserializeSeq ext row idx ≠ DecRes.panic m := by
  intro h
  simp only [rowDeserializeSeq] at h
  rcases hvv : tryGetRaw row idx with e | v <;> simp only [hvv] at h
  · exact DecRes.noConfusion h
  · split_ifs at h with h1 h2 h3 h4
    · rcases ha : v.arrayStrings with _ | xs <;> simp only [ha] at h <;>
        exact DecRes.noConfusion h
    · rcases ha : v.arrayI32 with _ | xs <;> simp only [ha] at h <;>
        exact DecRes.noConfusion h
    · rcases hr : decodeJsonArray ext v with m2 | _ | xs <;> simp only [hr] at h
      · exact decodeJsonArray_ne_panic ext v h3 m2 hr
      · exact DecRes.noConfusion h
      · exact DecRes.noConfusion h
    · rcases ha : v.arrayBools with _ | xs <;> simp only [ha] at h <;>
        exact DecRes.noConfusion h

/-- Shared helper: DecRes.map preserves panic-freeness. -/
theorem DecRes_map_ne_panic {α β : Type} (f : α → β) (x : DecRes α)
    (hx : ∀ m, x ≠ DecRes.panic m) (m : String) : x.map f ≠ DecRes.panic m := by
  intro h
  cases x with
  | panic m2 => exact hx m2 rfl
  | err e => exact DecRes.noConfusion h
  | ok a => exact DecRes.noConfusion h

/-- Shared helper: deserialize_any at row level never panics. -/
theorem rowDeserializeAny_ne_panic (ext : Externals) (row : PgRow) (idx : Nat)
    (m : String) : rowDeserializeAny ext row idx ≠ DecRes.panic m := by
  intro h
  simp only [rowDeserializeAny] at h
  split at h
  · exact DecRes.noConfusion h
  · split at h
    · exact DecRes_map_ne_panic _ _ (rowDeserializeSeq_ne_panic ext row idx) m h
    · rcases hvv : tryGetRaw row idx with e | v <;> simp only [hvv] at h
      · exact DecRes.noConfusion h
      · split at h
        · exact DecRes.noConfusion h
        · split at h
          · exact DecRes_map_ne_panic _ _ (rowDeserializeSeq_ne_panic ext row idx) m h
          · exact DecRes_map_ne_panic _ _ (valueDeserializeAny_ne_panic ext v) m h

/-- C10: the document parser rejects a non-document tag by panicking, and that arm is
unreachable from every decode entry point: each call site guards on a document tag. -/
theorem c10_json_panic_unreachable :
    (∀ ext bytes, pgJsonDecode ext "INT4" bytes = JsonDecodeRes.panic "Got INT4 in PgJson") ∧
    (∀ ext row idx fields m, rowDeserializeStruct ext row idx fields ≠ DecRes.panic m) ∧
    (∀ ext v m, valueDeserializeAny ext v ≠ DecRes.panic m) ∧
    (∀ ext row idx m, rowDeserializeSeq ext row idx ≠ DecRes.panic m) ∧
    (∀ ext row idx m, rowDeserializeAny ext row idx ≠ DecRes.panic m) :=
  ⟨fun _ _ => rfl, fun ext row idx fields m => rowDeserializeStruct_ne_panic ext row idx fields m,
    fun ext v m => valueDeserializeAny_ne_panic ext v m,
    fun ext row idx m => rowDeserializeSeq_ne_panic ext row idx m,
    fun ext row idx m => rowDeserializeAny_ne_panic ext row idx m⟩


/-- C2: the per-tag scalar decode maps each recognized tag to exactly its specified
target; the interval duration is a function of days and microseconds only; every
unrecognized tag (varying-character included) falls back to the string decode, whose
failure fails the whole decode. -/
theorem c2_scalar_tag_mapping (ext : Externals) (v : PgColumnValue)
    (hnn : v.isNull = false) :
    (v.typeName = "BOOL" → valueDeserializeAny ext v =
      visitOr (v.decodeBool.map VisitScalar.vBool) "Failed to decode BOOL") ∧
    (v.typeName = "INT2" → valueDeserializeAny ext v =
      visitOr (v.decodeI16.map VisitScalar.vI16) "Failed to decode INT2") ∧
    (v.typeName = "INT4" → valueDeserializeAny ext v =
      visitOr (v.decodeI32.map VisitScalar.vI32) "Failed to decode INT4") ∧
    (v.typeName = "INT8" → valueDeserializeAny ext v =
      visitOr (v.decodeI64.map VisitScalar.vI64) "Failed to decode INT8") ∧
    (v.typeName = "FLOAT4" → valueDeserializeAny ext v =
      visitOr (v.decodeF32.map VisitScalar.vF32) "Failed to decode FLOAT4") ∧
    (v.typeName = "FLOAT8" ∨ v.typeName = "NUMERIC" → valueDeserializeAny ext v =
      visitOr (v.decodeF64.map VisitScalar.vF64) "Failed to decode FLOAT8/NUMERIC") ∧
    (v.typeName = "CHAR" ∨ v.typeName = "TEXT" → valueDeserializeAny ext v =
      visitOr (v.decodeString.map VisitScalar.vString) "Failed to decode TEXT/CHAR") ∧
    (v.typeName = "VARCHAR" → valueDeserializeAny ext v =
      visitOr (v.decodeString.map VisitScalar.vString) "Failed to decode type VARCHAR") ∧
    (v.typeName = "BYTEA" → valueDeserializeAny ext v =
      visitOr (v.decodeBytes.map VisitScalar.vBytes) "Failed to decode BYTEA") ∧
    (v.typeName = "DATE" → valueDeserializeAny ext v =
      visitOr (v.dateString.map VisitScalar.vString) "Failed to decode DATE") ∧
    (v.typeName = "TIME" ∨ v.typeName = "TIMETZ" → valueDeserializeAny ext v =
      visitOr (v.timeString.map VisitScalar.vString) "Failed to decode TIME/TIMETZ") ∧
    (v.typeName = "TIMESTAMP" ∨ v.typeName = "TIMESTAMPTZ" → valueDeserializeAny ext v =
      visitOr (v.timestampRfc3339.map VisitScalar.vString)
        "Failed to decode TIMESTAMP/TIMESTAMPTZ") ∧
    (v.typeName = "INTERVAL" → valueDeserializeAny ext v =
      visitOr (v.decodeInterval.map fun iv => VisitScalar.vString
        (ext.durationToString (intervalNanos iv))) "Failed to decode INTERVAL") ∧
    (∀ mo mo2 d us, intervalNanos ⟨mo, d, us⟩ = intervalNanos ⟨mo2, d, us⟩) ∧
    (v.typeName = "UUID" → valueDeserializeAny ext v =
      visitOr (v.uuidString.map VisitScalar.vString) "Failed to decode UUID") ∧
    (v.typeName ∉ recognizedTags → valueDeserializeAny ext v =
      visitOr (v.decodeString.map VisitScalar.vString)
        ("Failed to decode type " ++ v.typeName)) := by
  refine ⟨?_, ?_, ?_, ?_, ?_, ?_, ?_, ?_, ?_, ?_, ?_, ?_, ?_, ?_, ?_, ?_⟩
  · intro ht; simp [valueDeserializeAny, hnn, ht]
  · intro ht; simp [valueDeserializeAny, hnn, ht]
  · intro ht; simp [valueDeserializeAny, hnn, ht]
  · intro ht; simp [valueDeserializeAny, hnn, ht]
  · intro ht; simp [valueDeserializeAny, hnn, ht]
  · intro ht; rcases ht with ht | ht <;> simp [valueDeserializeAny, hnn, ht]
  · intro ht; rcases ht with ht | ht <;> simp [valueDeserializeAny, hnn, ht]
  · intro ht; simp [valueDeserializeAny, hnn, ht]
  · intro ht; simp [valueDeserializeAny, hnn, ht]
  · intro ht; simp [valueDeserializeAny, hnn, ht]
  · intro ht; rcases ht with ht | ht <;> simp [valueDeserializeAny, hnn, ht]
  · intro ht; rcases ht with ht | ht <;> simp [valueDeserializeAny, hnn, ht]
  · intro ht; simp [valueDeserializeAny, hnn, ht]
  · intro mo mo2 d us; rfl
  · intro ht; simp [valueDeserializeAny, hnn, ht]
  · intro hmem
    simp only [recognizedTags, List.mem_cons, List.not_mem_nil, or_false] at hmem
    push_neg at hmem
    obtain ⟨hA, hB, hC, hD, hE, hF, hG, hH, hI, hJ, hK, hL, hM, hN, hO, hP, hQ, hR,
      hS⟩ := hmem
    simp [valueDeserializeAny, hnn, hA, hB, hC, hD, hE, hF, hG, hH, hI, hJ, hK, hL,
      hM, hN, hO, hP, hQ, hR, hS]

/-- C2 witness: a concrete BOOL column and a concrete VARCHAR column. -/
theorem c2_witness :
    valueDeserializeAny extSample colBool = DecRes.ok (VisitScalar.vBool true) ∧
    valueDeserializeAny extSample colVarchar = DecRes.ok (VisitScalar.vString "hi") := by
  constructor
  · have h := (c2_scalar_tag_mapping extSample colBool rfl).1 rfl
    simpa [colBool, visitOr] using h
  · have h := (c2_scalar_tag_mapping extSample colVarchar rfl).2.2.2.2.2.2.2.1 rfl
    simpa [colVarchar, visitOr] using h

/-- Shared helper: a handled array tag never reaches the PgRowSeqAccess fallback. -/
theorem rowDeserializeSeq_handled_not_rowSeq (ext : Externals) (row : PgRow) (idx : Nat)
    (v : PgColumnValue) (hv : tryGetRaw row idx = Except.ok v)
    (hmem : v.typeName ∈ handledArrayTags) :
    ∀ s n, rowDeserializeSeq ext row idx ≠ DecRes.ok (SeqVisit.rowSeq s n) := by
  intro s n h
  simp only [rowDeserializeSeq, hv] at h
  simp only [handledArrayTags, List.mem_cons, List.not_mem_nil, or_false] at hmem
  rcases hmem with ht | ht | ht | ht | ht | ht <;> simp only [ht] at h
  · rcases ha : v.arrayStrings with _ | xs <;> simp [ha] at h
  · rcases ha : v.arrayStrings with _ | xs <;> simp [ha] at h
  · rcases ha : v.arrayI32 with _ | xs <;> simp [ha] at h
  · rcases hr : decodeJsonArray ext v with m2 | _ | xs <;> simp [hr] at h
  · rcases hr : decodeJsonArray ext v with m2 | _ | xs <;> simp [hr] at h
  · rcases ha : v.arrayBools with _ | xs <;> simp [ha] at h

/-- C3 counterexample: INT8[] is an array of a ScalarCodec primitive kind, yet
deserialize_seq gives it no one-shot array branch and falls through to the
row-sequence path. -/
theorem c3_counterexample :
    rowDeserializeSeq extSample ⟨[colInt8Array]⟩ 0 = DecRes.ok (SeqVisit.rowSeq 0 1) ∧
    "INT8" ∈ recognizedTags ∧ "INT8[]" ∉ handledArrayTags :=
  ⟨rfl, by decide, by decide⟩

/-- C3 amended: the one-shot array branches cover exactly string (TEXT[], VARCHAR[]),
32-bit integer (INT4[]), boolean (BOOL[]) and document (JSON[], JSONB[]) element kinds,
each decoding into an ordered sequence of optional elements; any other array tag falls
through to the row-sequence path. -/
theorem c3_array_dispatch_amended (ext : Externals) (row : PgRow) (idx : Nat)
    (v : PgColumnValue) (hv : tryGetRaw row idx = Except.ok v) :
    (v.typeName ∈ handledArrayTags →
      ∀ s n, rowDeserializeSeq ext row idx ≠ DecRes.ok (SeqVisit.rowSeq s n)) ∧
    (v.typeName ∉ handledArrayTags →
      rowDeserializeSeq ext row idx = DecRes.ok (SeqVisit.rowSeq idx row.cols.length)) ∧
    (v.typeName = "TEXT[]" ∨ v.typeName = "VARCHAR[]" → ∀ xs, v.arrayStrings = some xs →
      rowDeserializeSeq ext row idx = DecRes.ok (SeqVisit.arrayStrings xs)) ∧
    (v.typeName = "INT4[]" → ∀ xs, v.arrayI32 = some xs →
      rowDeserializeSeq ext row idx = DecRes.ok (SeqVisit.arrayI32 xs)) ∧
    (v.typeName = "BOOL[]" → ∀ xs, v.arrayBools = some xs →
      rowDeserializeSeq ext row idx = DecRes.ok (SeqVisit.arrayBools xs)) ∧
    (v.typeName = "JSON[]" ∨ v.typeName = "JSONB[]" → ∀ xs,
      decodeJsonArray ext v = RawDec.ok xs →
      rowDeserializeSeq ext row idx = DecRes.ok (SeqVisit.arrayJson xs)) := by
  refine ⟨rowDeserializeSeq_handled_not_rowSeq ext row idx v hv, ?_, ?_, ?_, ?_, ?_⟩
  · intro hmem
    simp only [handledArrayTags, List.mem_cons, List.not_mem_nil, or_false] at hmem
    push_neg at hmem
    obtain ⟨h1, h2, h3, h4, h5, h6⟩ := hmem
    simp [rowDeserializeSeq, hv, h1, h2, h3, h4, h5, h6]
  · intro ht xs hxs
    rcases ht with ht | ht <;> simp [rowDeserializeSeq, hv, ht, hxs]
  · intro ht xs hxs
    simp [rowDeserializeSeq, hv, ht, hxs]
  · intro ht xs hxs
    simp [rowDeserializeSeq, hv, ht, hxs]
  · intro ht xs hxs
    rcases ht with ht | ht <;> simp [rowDeserializeSeq, hv, ht, hxs]

/-- C3 amended witness: a TEXT[] column decodes in one shot; a TIMESTAMP[] column falls
through. -/
theorem c3_amended_witness :
    rowDeserializeSeq extSample ⟨[colTextArray]⟩ 0 =
      DecRes.ok (SeqVisit.arrayStrings [some "a", none]) ∧
    rowDeserializeSeq extSample
      ⟨[{ name := "c", typeName := "TIMESTAMP[]", isNull := false }]⟩ 0 =
      DecRes.ok (SeqVisit.rowSeq 0 1) := by
  constructor
  · exact (c3_array_dispatch_amended extSample ⟨[colTextArray]⟩ 0 colTextArray
      rfl).2.2.1 (Or.inl rfl) [some "a", none] rfl
  · exact (c3_array_dispatch_amended extSample
      ⟨[{ name := "c", typeName := "TIMESTAMP[]", isNull := false }]⟩ 0
      { name := "c", typeName := "TIMESTAMP[]", isNull := false } rfl).2.1 (by decide)

/-- C9: on a multi-column row, a sequence request whose first column carries a handled
array tag decodes that first column's array alone — the result equals the decode of the
single-column row, so the remaining columns are never read — and never takes the
row-sequence fallback that would walk the other columns. -/
theorem c9_array_first_column (ext : Externals) (c : PgColumnValue)
    (rest : List PgColumnValue) (hrest : rest ≠ [])
    (htag : c.typeName ∈ handledArrayTags) :
    rowDeserializeSeq ext ⟨c :: rest⟩ 0 = rowDeserializeSeq ext ⟨[c]⟩ 0 ∧
    ∀ s n, rowDeserializeSeq ext ⟨c :: rest⟩ 0 ≠ DecRes.ok (SeqVisit.rowSeq s n) := by
  have hv1 : tryGetRaw ⟨c :: rest⟩ 0 = Except.ok c := rfl
  constructor
  · simp only [handledArrayTags, List.mem_cons, List.not_mem_nil, or_false] at htag
    rcases htag with ht | ht | ht | ht | ht | ht <;>
      simp [rowDeserializeSeq, tryGetRaw, ht]
  · exact rowDeserializeSeq_handled_not_rowSeq ext ⟨c :: rest⟩ 0 c hv1 htag

/-- C9 witness: a two-column row headed by a TEXT[] column. -/
theorem c9_witness :
    rowDeserializeSeq extSample ⟨[colTextArray, colInt4]⟩ 0 =
      rowDeserializeSeq extSample ⟨[colTextArray]⟩ 0 :=
  (c9_array_first_column extSample colTextArray [colInt4] (by simp) (by decide)).1

end SerdeSqlx
